import Mathlib

/-!
Verification development for the solarflow-bt-manager bridge (src/main.py).

The Python source is shallowly embedded: the JSON handling of the inbound
notification handler, the command serialisation, the two-pass device
discovery, the run-mode dispatch and the polling loop are modelled as
executable Lean functions.  Byte strings are lists of naturals, JSON values
are an inductive type, and the effectful parts (GATT writes, MQTT publishes,
sleeps) are modelled as event traces.
-/

namespace Solarflow

/-- JSON values as handled by the json module.  A number is kept as a decimal
mantissa together with the length of its fractional part, so the integer 30
is num 30 0 and the literal 52.1 is num 521 1 (the source never computes with
these values; they are parsed, compared and re-serialised only). -/
inductive Json where
  | null : Json
  | bool : Bool → Json
  | num : Int → Nat → Json
  | str : String → Json
  | arr : List Json → Json
  | obj : List (String × Json) → Json

/-- Decimal digits of a natural number, most significant first, written with
explicit fuel (models the Python str() conversion of a non-negative int). -/
def natDigitsAux : Nat → Nat → List Char → List Char
  | 0, _, acc => acc
  | fuel + 1, n, acc =>
    let c := Char.ofNat (48 + n % 10)
    if n < 10 then c :: acc else natDigitsAux fuel (n / 10) (c :: acc)

/-- Python str() of a natural number. -/
def pyNatStr (n : Nat) : String := String.mk (natDigitsAux (n + 1) n [])

/-- Python str() of an int. -/
def pyIntStr (m : Int) : String :=
  if m < 0 then ("-") ++ pyNatStr m.natAbs else pyNatStr m.natAbs

/-- Render the decimal number with mantissa m and fraction length e the way
Python repr renders the corresponding int or float literal. -/
def numRepr (m : Int) (e : Nat) : String :=
  if e = 0 then pyIntStr m
  else
    let ds := natDigitsAux (m.natAbs + 1) m.natAbs []
    let ds := if ds.length < e + 1 then List.replicate (e + 1 - ds.length) ('0') ++ ds else ds
    let ip := String.mk (ds.take (ds.length - e))
    let fp := String.mk (ds.drop (ds.length - e))
    (if m < 0 then ("-") else ("")) ++ ip ++ (".") ++ fp

/-- One character of json.dumps string escaping with the default
ensure_ascii=True: quote, backslash and the named control characters get a
two-character escape, remaining characters outside the printable ASCII range
get a four-digit escape (astral characters become a surrogate pair). -/
def hexDigit (n : Nat) : Char := if n < 10 then Char.ofNat (48 + n) else Char.ofNat (87 + n)

/-- Four-hex-digit rendering used by the json.dumps escape. -/
def hex4 (n : Nat) : List Char :=
  [hexDigit (n / 4096 % 16), hexDigit (n / 256 % 16), hexDigit (n / 16 % 16), hexDigit (n % 16)]

/-- json.dumps escaping of a single character (list of output characters). -/
def escCharL (c : Char) : List Char :=
  if c = Char.ofNat 34 then [Char.ofNat 92, Char.ofNat 34]
  else if c = Char.ofNat 92 then [Char.ofNat 92, Char.ofNat 92]
  else if c = Char.ofNat 8 then [Char.ofNat 92, ('b')]
  else if c = Char.ofNat 9 then [Char.ofNat 92, ('t')]
  else if c = Char.ofNat 10 then [Char.ofNat 92, ('n')]
  else if c = Char.ofNat 12 then [Char.ofNat 92, ('f')]
  else if c = Char.ofNat 13 then [Char.ofNat 92, ('r')]
  else if 32 ≤ c.toNat ∧ c.toNat ≤ 126 then [c]
  else if c.toNat < 65536 then Char.ofNat 92 :: ('u') :: hex4 c.toNat
  else
    (Char.ofNat 92 :: ('u') :: hex4 (55296 + (c.toNat - 65536) / 1024)) ++
    (Char.ofNat 92 :: ('u') :: hex4 (56320 + (c.toNat - 65536) % 1024))

/-- json.dumps escaping of a character list. -/
def escList : List Char → List Char
  | [] => []
  | c :: cs => escCharL c ++ escList cs

/-- json.dumps rendering of a string literal, as a character list. -/
def strReprL (s : String) : List Char :=
  Char.ofNat 34 :: (escList s.data ++ [Char.ofNat 34])

mutual

/-- json.dumps with the default separators (", " between items, ": " after
keys), as a character list. -/
def dumpsL : Json → List Char
  | Json.null => ("null").data
  | Json.bool true => ("true").data
  | Json.bool false => ("false").data
  | Json.num m e => (numRepr m e).data
  | Json.str s => strReprL s
  | Json.arr xs => Char.ofNat 91 :: (dumpsArrL xs ++ [Char.ofNat 93])
  | Json.obj fs => Char.ofNat 123 :: (dumpsObjL fs ++ [Char.ofNat 125])

/-- json.dumps rendering of array elements. -/
def dumpsArrL : List Json → List Char
  | [] => []
  | [x] => dumpsL x
  | x :: y :: xs => dumpsL x ++ ((", ").data ++ dumpsArrL (y :: xs))

/-- json.dumps rendering of object members. -/
def dumpsObjL : List (String × Json) → List Char
  | [] => []
  | [(k, v)] => strReprL k ++ ((": ").data ++ dumpsL v)
  | (k, v) :: f :: fs => strReprL k ++ ((": ").data ++ (dumpsL v ++ ((", ").data ++ dumpsObjL (f :: fs))))

end

/-- json.dumps of a value, modelling the Python call with default options. -/
def dumps (j : Json) : String := String.mk (dumpsL j)

mutual

/-- Python str()/repr() of a value, used by the f-string topics of the handler
(str of a str is the str itself; containers render via repr, with
single-quoted strings). -/
def pyStr : Json → String
  | Json.str s => s
  | j => pyRepr j

/-- Python repr() of a json-module value. -/
def pyRepr : Json → String
  | Json.null => ("None")
  | Json.bool true => ("True")
  | Json.bool false => ("False")
  | Json.num m e => numRepr m e
  | Json.str s => String.mk (Char.ofNat 39 :: (s.data ++ [Char.ofNat 39]))
  | Json.arr xs => String.mk (Char.ofNat 91 :: ((pyReprArr xs).data ++ [Char.ofNat 93]))
  | Json.obj fs => String.mk (Char.ofNat 123 :: ((pyReprObj fs).data ++ [Char.ofNat 125]))

/-- Python repr() of list elements. -/
def pyReprArr : List Json → String
  | [] => ("")
  | [x] => pyRepr x
  | x :: y :: xs => pyRepr x ++ ((", ") ++ pyReprArr (y :: xs))

/-- Python repr() of dict members. -/
def pyReprObj : List (String × Json) → String
  | [] => ("")
  | [(k, v)] => pyRepr (Json.str k) ++ ((": ") ++ pyRepr v)
  | (k, v) :: f :: fs => pyRepr (Json.str k) ++ ((": ") ++ (pyRepr v ++ ((", ") ++ pyReprObj (f :: fs))))

end

/-! ### UTF-8 decoding (models bytes.decode with the utf8 codec) -/

/-- Decode a byte list as UTF-8 into characters; none on any malformed,
overlong or surrogate sequence, as the Python utf8 codec rejects them. -/
def utf8Decode : List Nat → Option (List Char)
  | [] => some []
  | b1 :: rest =>
    if b1 < 128 then
      (utf8Decode rest).map (fun cs => Char.ofNat b1 :: cs)
    else if 194 ≤ b1 ∧ b1 ≤ 223 then
      match rest with
      | b2 :: rest2 =>
        if 128 ≤ b2 ∧ b2 ≤ 191 then
          (utf8Decode rest2).map (fun cs => Char.ofNat ((b1 - 192) * 64 + (b2 - 128)) :: cs)
        else none
      | [] => none
    else if 224 ≤ b1 ∧ b1 ≤ 239 then
      match rest with
      | b2 :: b3 :: rest3 =>
        let lo2 := if b1 = 224 then 160 else 128
        let hi2 := if b1 = 237 then 159 else 191
        if (lo2 ≤ b2 ∧ b2 ≤ hi2) ∧ (128 ≤ b3 ∧ b3 ≤ 191) then
          (utf8Decode rest3).map
            (fun cs => Char.ofNat ((b1 - 224) * 4096 + (b2 - 128) * 64 + (b3 - 128)) :: cs)
        else none
      | _ => none
    else if 240 ≤ b1 ∧ b1 ≤ 244 then
      match rest with
      | b2 :: b3 :: b4 :: rest4 =>
        let lo2 := if b1 = 240 then 144 else 128
        let hi2 := if b1 = 244 then 143 else 191
        if (lo2 ≤ b2 ∧ b2 ≤ hi2) ∧ (128 ≤ b3 ∧ b3 ≤ 191) ∧ (128 ≤ b4 ∧ b4 ≤ 191) then
          (utf8Decode rest4).map
            (fun cs =>
              Char.ofNat ((b1 - 240) * 262144 + (b2 - 128) * 4096 + (b3 - 128) * 64 + (b4 - 128)) :: cs)
        else none
      | _ => none
    else none

/-- Code points of an ASCII string, used both as the model of UTF-8 encoding
a test vector and of the Python map(ord, s) idiom on ASCII command text. -/
def asciiBytes (s : String) : List Nat := s.data.map Char.toNat

/-! ### JSON parsing (models json.loads) -/

/-- JSON whitespace. -/
def jwsB (c : Char) : Bool := c = (' ') || c = ('\t') || c = ('\n') || c = Char.ofNat 13

/-- Drop leading JSON whitespace. -/
def skipWs : List Char → List Char
  | [] => []
  | c :: cs => if jwsB c then skipWs cs else c :: cs

/-- Value of one hex digit. -/
def hexVal (c : Char) : Option Nat :=
  if 48 ≤ c.toNat ∧ c.toNat ≤ 57 then some (c.toNat - 48)
  else if 97 ≤ c.toNat ∧ c.toNat ≤ 102 then some (c.toNat - 87)
  else if 65 ≤ c.toNat ∧ c.toNat ≤ 70 then some (c.toNat - 55)
  else none

/-- Parse the body of a JSON string literal (opening quote already consumed),
accepting the standard escapes; raw control characters are rejected, and an
escaped surrogate code unit is rejected (a simplification: the Python decoder
admits lone surrogates, which Lean characters cannot carry; no input in this
development contains one). -/
def pStrAux : List Char → List Char → Option (String × List Char)
  | _, [] => none
  | acc, c :: cs =>
    if c = Char.ofNat 34 then some (String.mk acc.reverse, cs)
    else if c = Char.ofNat 92 then
      match cs with
      | [] => none
      | e :: cs2 =>
        if e = Char.ofNat 34 then pStrAux (Char.ofNat 34 :: acc) cs2
        else if e = Char.ofNat 92 then pStrAux (Char.ofNat 92 :: acc) cs2
        else if e = Char.ofNat 47 then pStrAux (Char.ofNat 47 :: acc) cs2
        else if e = ('b') then pStrAux (Char.ofNat 8 :: acc) cs2
        else if e = ('f') then pStrAux (Char.ofNat 12 :: acc) cs2
        else if e = ('n') then pStrAux (Char.ofNat 10 :: acc) cs2
        else if e = ('r') then pStrAux (Char.ofNat 13 :: acc) cs2
        else if e = ('t') then pStrAux (Char.ofNat 9 :: acc) cs2
        else if e = ('u') then
          match cs2 with
          | h1 :: h2 :: h3 :: h4 :: cs3 =>
            match hexVal h1, hexVal h2, hexVal h3, hexVal h4 with
            | some a, some b, some c3, some d =>
              let v := a * 4096 + b * 256 + c3 * 16 + d
              if 55296 ≤ v ∧ v ≤ 57343 then none else pStrAux (Char.ofNat v :: acc) cs3
            | _, _, _, _ => none
          | _ => none
        else none
    else if c.toNat < 32 then none
    else pStrAux (c :: acc) cs

/-- Leading decimal digits of the input. -/
def spanDigits : List Char → List Char × List Char
  | [] => ([], [])
  | c :: cs =>
    if 48 ≤ c.toNat ∧ c.toNat ≤ 57 then
      let r := spanDigits cs
      (c :: r.1, r.2)
    else ([], c :: cs)

/-- Natural number denoted by a digit list. -/
def digitsToNat (ds : List Char) : Nat := ds.foldl (fun a c => a * 10 + (c.toNat - 48)) 0

/-- Parse a JSON number (no exponent form: the hub messages of the source never
use one, and the claims never exercise it). -/
def pNum (cs : List Char) : Option (Json × List Char) :=
  let (neg, cs1) :=
    match cs with
    | c :: rest => if c = ('-') then (true, rest) else (false, cs)
    | [] => (false, cs)
  match spanDigits cs1 with
  | ([], _) => none
  | (d0 :: ds, rest) =>
    if d0 = ('0') ∧ ds ≠ [] then none
    else
      let ip := d0 :: ds
      match rest with
      | c :: rest2 =>
        if c = ('.') then
          match spanDigits rest2 with
          | ([], _) => none
          | (fs, rest3) =>
            let m : Int := Int.ofNat (digitsToNat (ip ++ fs))
            some (Json.num (if neg then -m else m) fs.length, rest3)
        else some (Json.num (if neg then -(Int.ofNat (digitsToNat ip)) else Int.ofNat (digitsToNat ip)) 0, c :: rest2)
      | [] => some (Json.num (if neg then -(Int.ofNat (digitsToNat ip)) else Int.ofNat (digitsToNat ip)) 0, [])

/-- Insert a key into an association list with dict semantics: an existing
key keeps its position and takes the new value, a new key goes to the end. -/
def insertField : List (String × Json) → String → Json → List (String × Json)
  | [], k, v => [(k, v)]
  | (k1, v1) :: rest, k, v =>
    if k1 = k then (k1, v) :: rest else (k1, v1) :: insertField rest k v

/-- Fold raw members into a dict-semantics association list. -/
def objFromPairs (ps : List (String × Json)) : List (String × Json) :=
  ps.foldl (fun acc kv => insertField acc kv.1 kv.2) []

mutual

/-- Parse one JSON value (fuel-indexed recursive descent). -/
def pValue : Nat → List Char → Option (Json × List Char)
  | 0, _ => none
  | fuel + 1, cs =>
    match skipWs cs with
    | [] => none
    | c :: rest =>
      if c = Char.ofNat 34 then pStrAux [] rest |>.map (fun r => (Json.str r.1, r.2))
      else if c = Char.ofNat 123 then
        match skipWs rest with
        | c2 :: rest2 =>
          if c2 = Char.ofNat 125 then some (Json.obj [], rest2)
          else (pFields fuel (c2 :: rest2)).map (fun r => (Json.obj (objFromPairs r.1), r.2))
        | [] => none
      else if c = Char.ofNat 91 then
        match skipWs rest with
        | c2 :: rest2 =>
          if c2 = Char.ofNat 93 then some (Json.arr [], rest2)
          else (pElems fuel (c2 :: rest2)).map (fun r => (Json.arr r.1, r.2))
        | [] => none
      else if c = ('t') then
        match rest with
        | r :: u :: e :: rest2 =>
          if r = ('r') ∧ u = ('u') ∧ e = ('e') then some (Json.bool true, rest2) else none
        | _ => none
      else if c = ('f') then
        match rest with
        | a :: l :: s :: e :: rest2 =>
          if a = ('a') ∧ l = ('l') ∧ s = ('s') ∧ e = ('e') then some (Json.bool false, rest2) else none
        | _ => none
      else if c = ('n') then
        match rest with
        | u :: l :: l2 :: rest2 =>
          if u = ('u') ∧ l = ('l') ∧ l2 = ('l') then some (Json.null, rest2) else none
        | _ => none
      else if c = ('-') ∨ (48 ≤ c.toNat ∧ c.toNat ≤ 57) then pNum (c :: rest)
      else none

/-- Parse the members of a nonempty JSON object (positioned at the first
member); returns the raw pairs in source order. -/
def pFields : Nat → List Char → Option (List (String × Json) × List Char)
  | 0, _ => none
  | fuel + 1, cs =>
    match skipWs cs with
    | c :: rest =>
      if c = Char.ofNat 34 then
        match pStrAux [] rest with
        | some (k, rest2) =>
          match skipWs rest2 with
          | c2 :: rest3 =>
            if c2 = Char.ofNat 58 then
              match pValue fuel rest3 with
              | some (v, rest4) =>
                match skipWs rest4 with
                | c3 :: rest5 =>
                  if c3 = Char.ofNat 44 then
                    (pFields fuel rest5).map (fun r => ((k, v) :: r.1, r.2))
                  else if c3 = Char.ofNat 125 then some ([(k, v)], rest5)
                  else none
                | [] => none
              | none => none
            else none
          | [] => none
        | none => none
      else none
    | [] => none

/-- Parse the elements of a nonempty JSON array (positioned at the first
element). -/
def pElems : Nat → List Char → Option (List Json × List Char)
  | 0, _ => none
  | fuel + 1, cs =>
    match pValue fuel cs with
    | some (v, rest) =>
      match skipWs rest with
      | c :: rest2 =>
        if c = Char.ofNat 44 then (pElems fuel rest2).map (fun r => (v :: r.1, r.2))
        else if c = Char.ofNat 93 then some ([v], rest2)
        else none
      | [] => none
    | none => none

end

/-- json.loads on a decoded character sequence: parse one value and require
only whitespace after it. -/
def loads (cs : List Char) : Option Json :=
  match pValue (cs.length + 1) cs with
  | some (j, rest) => if skipWs rest = [] then some j else none
  | none => none

/-! ### Dictionary-style access used by handle_rx (main.py lines 123-163) -/

/-- Value of a key in an object field list (first match). -/
def lookupField : List (String × Json) → String → Option Json
  | [], _ => none
  | (k1, v) :: rest, k => if k1 = k then some v else lookupField rest k

/-- Python dict.pop: value of the key plus the remaining fields; none models
the KeyError on a missing key. -/
def popField : List (String × Json) → String → Option (Json × List (String × Json))
  | [], _ => none
  | (k1, v1) :: rest, k =>
    if k1 = k then some (v1, rest)
    else (popField rest k).map (fun r => (r.1, (k1, v1) :: r.2))

/-- Substring test on character lists (Python str membership). -/
def containsSub : List Char → List Char → Bool
  | [], n => n.isEmpty
  | h :: t, n => n.isPrefixOf (h :: t) || containsSub t n

/-- The Python membership test key in payload: some b when it evaluates to b,
none when it raises a TypeError (membership on a number, bool or None). -/
def pyContains (key : String) : Json → Option Bool
  | Json.obj fs => some (lookupField fs key).isSome
  | Json.arr xs => some (xs.any (fun x => match x with | Json.str s => s = key | _ => false))
  | Json.str s => some (containsSub s.data key.data)
  | _ => none

/-- Python len(): none models the TypeError on an unsized value. -/
def pyLen : Json → Option Nat
  | Json.arr xs => some xs.length
  | Json.obj fs => some fs.length
  | Json.str s => some s.data.length
  | _ => none

/-- The Python comparison payload["method"] == "getInfo-rsp": true exactly
when the value is that string. -/
def isMethodGetInfoRsp (fs : List (String × Json)) : Bool :=
  match lookupField fs ("method") with
  | some (Json.str s) => s = ("getInfo-rsp")
  | _ => false

/-- Whether the mqtt client can serialise the value as a publish payload
(paho accepts strings, numbers, bools and None; containers raise). -/
def isScalarPub : Json → Bool
  | Json.obj _ => false
  | Json.arr _ => false
  | _ => true

/-! ### The telemetry sink: handle_rx (main.py lines 123-163) -/

/-- One MQTT publish performed by the bridge. -/
structure Msg where
  topic : String
  payload : Json
  retain : Bool

/-- Topic of a per-property telemetry message (main.py line 145). -/
def telemetryTopic (prop : String) : String := ("solarflow-hub/telemetry/") ++ prop

/-- Topic of a per-pack per-property telemetry message (main.py line 158). -/
def batteryTopic (sn prop : String) : String :=
  ("solarflow-hub/telemetry/batteries/") ++ sn ++ (("/") ++ prop)

/-- Topic of the aggregate state message (main.py line 148). -/
def stateTopic (productId deviceId : String) : String :=
  productId ++ (("/") ++ deviceId ++ ("/state"))

/-- The per-property publish loop of the properties branch (lines 141-145);
the Bool is false when publishing raised mid-loop, in which case the messages
already sent are kept. -/
def propLoop : List (String × Json) → List Msg × Bool
  | [] => ([], true)
  | (k, v) :: rest =>
    if isScalarPub v then
      let r := propLoop rest
      (⟨telemetryTopic k, v, false⟩ :: r.1, r.2)
    else ([], false)

/-- The per-property publish loop of one pack (lines 157-158). -/
def packPropLoop (sn : String) : List (String × Json) → List Msg × Bool
  | [] => ([], true)
  | (k, v) :: rest =>
    if isScalarPub v then
      let r := packPropLoop sn rest
      (⟨batteryTopic sn k, v, false⟩ :: r.1, r.2)
    else ([], false)

/-- The pack loop of the packData branch (lines 154-158): each pack must be
a mapping and must carry the serial key sn (popped before republishing); a
failure aborts the loop, keeping the messages already sent. -/
def packLoop : List Json → List Msg × Bool
  | [] => ([], true)
  | p :: rest =>
    match p with
    | Json.obj fields =>
      match popField fields ("sn") with
      | some (snv, others) =>
        let r1 := packPropLoop (pyStr snv) others
        if r1.2 then
          let r2 := packLoop rest
          (r1.1 ++ r2.1, r2.2)
        else (r1.1, false)
      | none => ([], false)
    | _ => ([], false)

/-- The body of handle_rx after a successful json.loads (lines 130-158):
the list of MQTT messages published.  Any exception raised mid-way is caught
by the surrounding handler (lines 161-163), so processing stops but the
messages already published remain. -/
def processPayload (productId deviceId : String) (mqPresent : Bool) (payload : Json) : List Msg :=
  match pyContains ("method") payload with
  | none => []
  | some hasMethod =>
    let infoOk : Bool :=
      if hasMethod then
        match payload with
        | Json.obj fs =>
          if isMethodGetInfoRsp fs then
            (lookupField fs ("deviceId")).isSome && (lookupField fs ("deviceSn")).isSome
          else true
        | _ => false
      else true
    if !infoOk then []
    else if !mqPresent then []
    else
      match pyContains ("properties") payload with
      | none => []
      | some hasProps =>
        let step1 : List Msg × Bool :=
          if hasProps then
            match payload with
            | Json.obj fs =>
              match lookupField fs ("properties") with
              | some (Json.obj props) =>
                let r := propLoop props
                if r.2 then
                  (r.1 ++ [⟨stateTopic productId deviceId, Json.str (dumps (Json.obj props)), false⟩],
                   true)
                else (r.1, false)
              | some _ => ([], false)
              | none => ([], false)
            | _ => ([], false)
          else ([], true)
        if !step1.2 then step1.1
        else
          match pyContains ("packData") payload with
          | none => step1.1
          | some hasPacks =>
            if !hasPacks then step1.1
            else
              match payload with
              | Json.obj fs =>
                match lookupField fs ("packData") with
                | some pd =>
                  match pyLen pd with
                  | none => step1.1
                  | some n =>
                    if n = 0 then step1.1
                    else
                      match pd with
                      | Json.arr packs => step1.1 ++ (packLoop packs).1
                      | _ => step1.1
                | none => step1.1
              | _ => step1.1

/-- handle_rx (main.py lines 123-163) as a function from the raw notification
bytes to the list of MQTT messages published.  It is total: decode errors,
JSON errors and any in-body exception are caught by the handler. -/
def handle_rx (productId deviceId : String) (mqPresent : Bool) (data : List Nat) : List Msg :=
  match utf8Decode data with
  | none => []
  | some cs =>
    match loads cs with
    | none => []
    | some payload => processPayload productId deviceId mqPresent payload

/-! ### The spec-level decode contract over the same pipeline -/

/-- The decode error classes of the spec, matching the two handler paths:
a UnicodeDecodeError (caught by the generic handler, line 161) and a
json.JSONDecodeError (caught at line 159). -/
inductive DecodeError where
  | invalidEncoding : DecodeError
  | invalidJson : DecodeError
deriving DecidableEq

/-- The typed notification events of the spec data model. -/
inductive NotificationEvent where
  | infoResponse : Json → Json → NotificationEvent
  | propertiesUpdate : List (String × Json) → NotificationEvent
  | packDataUpdate : List (String × List (String × Json)) → NotificationEvent
  | unrecognized : Json → NotificationEvent

/-- Extract pack entries the way the pack loop consumes them: each entry a
mapping carrying the serial key sn, which is removed. -/
def extractPacks : List Json → Option (List (String × List (String × Json)))
  | [] => some []
  | Json.obj fs :: rest =>
    match popField fs ("sn") with
    | some (snv, others) => (extractPacks rest).map (fun t => (pyStr snv, others) :: t)
    | none => none
  | _ :: _ => none

/-- Classify a parsed payload as a NotificationEvent, following the branch
order of handle_rx (getInfo-rsp, then properties, then packData); shapes the
handler would not act on are Unrecognized. -/
def classify (payload : Json) : NotificationEvent :=
  match payload with
  | Json.obj fs =>
    if isMethodGetInfoRsp fs then
      match lookupField fs ("deviceId"), lookupField fs ("deviceSn") with
      | some a, some b => NotificationEvent.infoResponse a b
      | _, _ => NotificationEvent.unrecognized payload
    else
      match lookupField fs ("properties") with
      | some (Json.obj props) => NotificationEvent.propertiesUpdate props
      | _ =>
        match lookupField fs ("packData") with
        | some (Json.arr packs) =>
          match extractPacks packs with
          | some ps => NotificationEvent.packDataUpdate ps
          | none => NotificationEvent.unrecognized payload
        | _ => NotificationEvent.unrecognized payload
  | _ => NotificationEvent.unrecognized payload

/-- The spec contract for the wire codec inbound direction: the byte-to-event
decode over the parsing pipeline of the handler (utf8 decode, then json.loads,
then shape classification). -/
def decode (bs : List Nat) : Except DecodeError NotificationEvent :=
  match utf8Decode bs with
  | none => Except.error DecodeError.invalidEncoding
  | some cs =>
    match loads cs with
    | none => Except.error DecodeError.invalidJson
    | some j => Except.ok (classify j)

/-! ### Device discovery (main.py lines 165-233) -/

/-- The static productId table of discover_device (lines 169-175). -/
def product_map : List (String × String) :=
  [(("73bkTV"), ("zenp")), (("A8yh63"), ("zenh")), (("yWF7hV"), ("zenr")),
   (("ja72U0ha"), ("zene")), (("8bM93H"), ("zenf"))]

/-- product_map.get(SF_PRODUCT_ID, "zen") (line 177): the name class for a
product id, with the generic fallback. -/
def resolveProfile (pid : String) : String := (product_map.lookup pid).getD ("zen")

/-- A BLE advertiser as the scanner reports it. -/
structure BTDevice where
  name : Option String
  address : String
deriving DecidableEq

/-- Python str.lower restricted to its per-character ASCII action. -/
def pyLower (s : String) : String := String.mk (s.data.map Char.toLower)

/-- The name predicate of both strategies (lines 218 and 228):
d.name and d.name.lower().startswith(product_class). -/
def matchesClass (pc : String) (d : BTDevice) : Bool :=
  match d.name with
  | some n => pc.data.isPrefixOf (pyLower n).data
  | none => false

/-- The fallback linear pass over the collected advertiser list
(lines 226-231): first entry whose name matches. -/
def findInCollected (pc : String) : List BTDevice → Option BTDevice
  | [] => none
  | d :: ds => if matchesClass pc d then some d else findInCollected pc ds

/-- discover_device (lines 202-233) reduced to its selection logic: the
filtered-scan strategy is an oracle (none covers both a timeout and a raised
scan error, which the source catches); when it yields nothing the collected
advertiser list is scanned linearly with the same predicate. -/
def discover_device (productId : String) (all_devices : List BTDevice)
    (primary : Option BTDevice) : Option BTDevice :=
  match primary with
  | some d => some d
  | none => findInCollected (resolveProfile productId) all_devices

/-! ### The continuous polling loop (main.py lines 287-303) -/

/-- Observable steps of one pass of the continuous loop. -/
inductive LoopEvent where
  | subscribe : LoopEvent
  | sendInfoCmd : LoopEvent
  | sendPropsCmd : LoopEvent
  | logSendError : LoopEvent
  | sleepPoll : LoopEvent
  | logLoopError : LoopEvent
  | sleepBackoff : LoopEvent
deriving DecidableEq

/-- Fault injection for one iteration: whether start_notify raises, and
whether each of the two GATT writes inside getInfo raises. -/
structure IterFault where
  subscribeFault : Bool
  infoCmdFault : Bool
  propsCmdFault : Bool
deriving DecidableEq

/-- A fault-free iteration. -/
def noFault : IterFault := ⟨false, false, false⟩

/-- getInfo (lines 64-84): each of the two writes is wrapped in its own
try/except, so a write failure is logged and never propagates. -/
def getInfoEvents (f : IterFault) : List LoopEvent :=
  (if f.infoCmdFault then [LoopEvent.logSendError] else [LoopEvent.sendInfoCmd]) ++
  (if f.propsCmdFault then [LoopEvent.logSendError] else [LoopEvent.sendPropsCmd])

/-- One pass of the while-True body (lines 291-303) from a given getinfo
flag: start_notify, then the command pair when the flag is set, then the
interval sleep whose result value True re-arms the flag; a raise inside the
pass is caught, logged and followed by the 5-second backoff, leaving the
flag as it was. -/
def pollIter (getinfo : Bool) (f : IterFault) : List LoopEvent × Bool :=
  if f.subscribeFault then
    ([LoopEvent.subscribe, LoopEvent.logLoopError, LoopEvent.sleepBackoff], getinfo)
  else
    (LoopEvent.subscribe :: ((if getinfo then getInfoEvents f else []) ++ [LoopEvent.sleepPoll]),
     true)

/-- The trace of the continuous loop over a finite schedule of iterations
(the loop itself is unbounded; a schedule is a prefix of its run). -/
def pollTrace (getinfo : Bool) : List IterFault → List LoopEvent
  | [] => []
  | f :: rest =>
    let r := pollIter getinfo f
    r.1 ++ pollTrace r.2 rest

/-! ### Cloud-toggle mode (main.py lines 86-121 and 262-276) -/

/-- Observable steps of the cloud-toggle branches. -/
inductive CloudEvent where
  | sendCmd : String → CloudEvent
  | logSendError : CloudEvent
  | publish : String → String → Bool → CloudEvent
  | settleSleep : Nat → CloudEvent
  | closeSession : CloudEvent
  | subscribeNotify : CloudEvent
deriving DecidableEq

/-- Json of an optional Python string (None becomes null). -/
def optStr : Option String → Json
  | none => Json.null
  | some s => Json.str s

/-- The token/credentials command c1 of set_IoT_Url (lines 89-97). -/
def c1Json (broker : String) (wifiPwd : Option String) (ssid : String) : Json :=
  Json.obj
    [(("iotUrl"), Json.str broker), (("messageId"), Json.str ("1002")),
     (("method"), Json.str ("token")), (("password"), optStr wifiPwd),
     (("ssid"), Json.str ssid), (("timeZone"), Json.str ("GMT+02:00")),
     (("token"), Json.str ("abcdefgh"))]

/-- The literal station-mode command cmd2 (line 99). -/
def stationCmdStr : String := ("\x7b\"messageId\":\"1003\",\"method\":\"station\"\x7d")

/-- The synthetic registration reply built by string concatenation
(line 101). -/
def replyStr (now : Nat) : String :=
  ("\x7b\"messageId\":123,\"timestamp\":") ++ pyNatStr now ++
  ((",\"params\":\x7b\"token\":\"abcdefgh\",\"result\":0\x7d\x7d"))

/-- Topic of the retained synthetic registration acknowledgment (line 121). -/
def registerTopic (productId deviceid : String) : String :=
  ("iot/") ++ productId ++ (("/") ++ deviceid ++ ("/register/replay"))

/-- set_IoT_Url (lines 86-121): send c1, send cmd2 (each send failure logged,
the sequence continues), then, whenever an mqtt client is configured, publish
the retained registration reply. -/
def set_IoT_Url (broker : String) (ssid : String) (wifiPwd : Option String)
    (productId deviceid : String) (mqPresent : Bool) (now : Nat)
    (fault1 fault2 : Bool) : List CloudEvent :=
  (if fault1 then [CloudEvent.logSendError]
   else [CloudEvent.sendCmd (dumps (c1Json broker wifiPwd ssid))]) ++
  ((if fault2 then [CloudEvent.logSendError] else [CloudEvent.sendCmd stationCmdStr]) ++
   (if mqPresent then [CloudEvent.publish (registerTopic productId deviceid) (replyStr now) true]
    else []))

/-- The disconnect branch of run (lines 263-268): set_IoT_Url against the
local broker, a 30-second settle sleep, then the context-manager close. -/
def runDisconnect (broker ssid : String) (wifiPwd : Option String)
    (productId deviceid : String) (mqPresent : Bool) (now : Nat)
    (f1 f2 : Bool) : List CloudEvent :=
  set_IoT_Url broker ssid wifiPwd productId deviceid mqPresent now f1 f2 ++
  [CloudEvent.settleSleep 30, CloudEvent.closeSession]

/-- The connect branch of run (lines 271-276): set_IoT_Url against the
Zendure cloud broker, a 30-second settle sleep, then the close. -/
def runConnect (ssid : String) (wifiPwd : Option String)
    (productId deviceid : String) (mqPresent : Bool) (now : Nat)
    (f1 f2 : Bool) : List CloudEvent :=
  set_IoT_Url ("mq.zen-iot.com") ssid wifiPwd productId deviceid mqPresent now f1 f2 ++
  [CloudEvent.settleSleep 30, CloudEvent.closeSession]

/-! ### Run-mode dispatch (main.py lines 262-289) -/

/-- The four branches of run once a device is connected. -/
inductive RunMode where
  | disconnectMode : RunMode
  | connectMode : RunMode
  | infoMode : RunMode
  | continuousMode : RunMode
deriving DecidableEq

/-- Python truthiness of an optional string (None and the empty string are
falsy). -/
def truthyStr : Option String → Bool
  | none => false
  | some s => !s.isEmpty

/-- Python truthiness of an optional int (None and 0 are falsy). -/
def truthyNat : Option Nat → Bool
  | none => false
  | some n => n != 0

/-- The branch selection of run (lines 263, 271, 279, 288): the disconnect
guard tests disconnect and the truthiness of broker, port, ssid and
SF_DEVICE_ID; the connect guard tests connect and ssid; the info branch
requires info_only and broker is None; anything else runs continuously. -/
def selectRunMode (broker : Option String) (port : Option Nat) (ssid : Option String)
    (deviceId : Option String) (info_only connect disconnect : Bool) : RunMode :=
  if disconnect && truthyStr broker && truthyNat port && truthyStr ssid && truthyStr deviceId then
    RunMode.disconnectMode
  else if connect && truthyStr ssid then RunMode.connectMode
  else if info_only && broker.isNone then RunMode.infoMode
  else RunMode.continuousMode

/-! ### Outbound command encoding (main.py lines 64-74) -/

/-- The info_cmd dict of getInfo (line 67), with the timestamp already
converted by str(). -/
def info_cmd (now : Nat) : Json :=
  Json.obj
    [(("messageId"), Json.str ("none")), (("method"), Json.str ("getInfo")),
     (("timestamp"), Json.str (pyNatStr now))]

/-- The byte sequence written for the getInfo command: bytearray extended
with map(ord, json.dumps(info_cmd)) (lines 72-74). -/
def encodeGetInfo (now : Nat) : List Nat := (dumps (info_cmd now)).data.map Char.toNat

/-! ### Helper lemmas -/

/-- A fully scalar property mapping publishes one telemetry message per
property, in order, and the loop completes. -/
theorem propLoop_scalar (l : List (String × Json)) (h : ∀ kv ∈ l, isScalarPub kv.2 = true) :
    propLoop l = (l.map (fun kv => ⟨telemetryTopic kv.1, kv.2, false⟩), true) := by
  induction l with
  | nil => rfl
  | cons kv rest ih =>
    have hkv : isScalarPub kv.2 = true := h kv (List.mem_cons_self kv rest)
    have hrest := ih (fun x hx => h x (List.mem_cons_of_mem kv hx))
    rcases kv with ⟨k, v⟩
    simp [propLoop, hkv, hrest]

/-- A fully scalar pack publishes one battery message per remaining
property, in order, and the loop completes. -/
theorem packPropLoop_scalar (sn : String) (l : List (String × Json))
    (h : ∀ kv ∈ l, isScalarPub kv.2 = true) :
    packPropLoop sn l = (l.map (fun kv => ⟨batteryTopic sn kv.1, kv.2, false⟩), true) := by
  induction l with
  | nil => rfl
  | cons kv rest ih =>
    have hkv : isScalarPub kv.2 = true := h kv (List.mem_cons_self kv rest)
    have hrest := ih (fun x hx => h x (List.mem_cons_of_mem kv hx))
    rcases kv with ⟨k, v⟩
    simp [packPropLoop, hkv, hrest]

/-- Popping a key from a mapping with pairwise distinct keys leaves a
mapping without that key. -/
theorem popField_not_mem (fields : List (String × Json)) (k : String) (v : Json)
    (others : List (String × Json)) (hpop : popField fields k = some (v, others))
    (hnd : (fields.map Prod.fst).Nodup) : k ∉ others.map Prod.fst := by
  induction fields generalizing v others with
  | nil => simp [popField] at hpop
  | cons kv rest ih =>
    rcases kv with ⟨k1, v1⟩
    rw [List.map_cons, List.nodup_cons] at hnd
    by_cases hk : k1 = k
    · subst hk
      simp [popField] at hpop
      rcases hpop with ⟨hv, ho⟩
      subst ho
      exact hnd.1
    · simp [popField, hk] at hpop
      rcases hpop with ⟨r1, r2, hrec, hv, ho⟩
      subst ho
      intro hmem
      rcases List.mem_cons.mp hmem with hmem | hmem
      · exact hk hmem.symm
      · exact ih r1 r2 (by simpa [hv] using hrec) hnd.2 hmem

/-- The getInfo command pair never touches the notification subscription. -/
theorem getInfoEvents_no_subscribe (f : IterFault) :
    (getInfoEvents f).count LoopEvent.subscribe = 0 := by
  rcases f with ⟨sf, fi, fp⟩
  cases fi <;> cases fp <;> rfl

/-- Every scheduled pass of the continuous loop attempts the subscription
exactly once, so the whole schedule is consumed: the loop never exits. -/
theorem pollTrace_subscribe_count (g : Bool) (sched : List IterFault) :
    (pollTrace g sched).count LoopEvent.subscribe = sched.length := by
  induction sched generalizing g with
  | nil => rfl
  | cons f rest ih =>
    rcases f with ⟨sf, fi, fp⟩
    cases sf
    · cases g <;> cases fi <;> cases fp <;>
        simp [pollTrace, pollIter, getInfoEvents, List.count_append, List.count_cons, ih]
    · simp [pollTrace, pollIter, List.count_append, List.count_cons, ih]

/-- The fallback scan returns the unique matching entry of the collected
list whenever it is present. -/
theorem findInCollected_unique (pc : String) (d : BTDevice) (advs : List BTDevice)
    (hmem : d ∈ advs) (hd : matchesClass pc d = true)
    (huniq : ∀ d2 ∈ advs, matchesClass pc d2 = true → d2 = d) :
    findInCollected pc advs = some d := by
  induction advs with
  | nil => simp at hmem
  | cons a t ih =>
    by_cases ha : matchesClass pc a = true
    · have had : a = d := huniq a (List.mem_cons_self a t) ha
      subst had
      simp [findInCollected, ha]
    · have hda : d ≠ a := fun h => ha (h ▸ hd)
      have hmt : d ∈ t := by
        rcases List.mem_cons.mp hmem with h | h
        · exact absurd h hda
        · exact h
      simp only [findInCollected, ha, if_false, Bool.false_eq_true]
      exact ih hmt (fun d2 h2 hm2 => huniq d2 (List.mem_cons_of_mem a h2) hm2)

/-- String append acts as list append on the underlying characters. -/
theorem strData_append (a b : String) : (a ++ b).data = a.data ++ b.data := by
  cases a; cases b; rfl

/-- Every character produced by the digit conversion is a decimal digit
(given a digit-only accumulator). -/
theorem natDigitsAux_digits : ∀ (fuel n : Nat) (acc : List Char),
    (∀ c ∈ acc, 48 ≤ c.toNat ∧ c.toNat ≤ 57) →
    ∀ c ∈ natDigitsAux fuel n acc, 48 ≤ c.toNat ∧ c.toNat ≤ 57 := by
  intro fuel
  induction fuel with
  | zero => intro n acc hacc c hc; exact hacc c hc
  | succ f ih =>
    intro n acc hacc c hc
    have hd : 48 ≤ (Char.ofNat (48 + n % 10)).toNat ∧ (Char.ofNat (48 + n % 10)).toNat ≤ 57 := by
      have h10 : n % 10 < 10 := Nat.mod_lt _ (by omega)
      set m := n % 10 with hm
      clear_value m
      interval_cases m <;> exact (by decide)
    have hacc2 : ∀ c2 ∈ (Char.ofNat (48 + n % 10) :: acc), 48 ≤ c2.toNat ∧ c2.toNat ≤ 57 := by
      intro c2 hc2
      rcases List.mem_cons.mp hc2 with h | h
      · exact h ▸ hd
      · exact hacc c2 h
    rw [natDigitsAux] at hc
    by_cases hlt : n < 10
    · rw [if_pos hlt] at hc
      exact hacc2 c hc
    · rw [if_neg hlt] at hc
      exact ih (n / 10) _ hacc2 c hc

/-- Every character of the str() conversion of a natural number is a
decimal digit. -/
theorem pyNatStr_digits (n : Nat) : ∀ c ∈ (pyNatStr n).data, 48 ≤ c.toNat ∧ c.toNat ≤ 57 :=
  natDigitsAux_digits (n + 1) n [] (by intro c h; simp at h)

/-- The json.dumps escape leaves a decimal digit unchanged. -/
theorem escCharL_digit (c : Char) (h1 : 48 ≤ c.toNat) (h2 : c.toNat ≤ 57) : escCharL c = [c] := by
  have t34 : (Char.ofNat 34).toNat = 34 := by decide
  have t92 : (Char.ofNat 92).toNat = 92 := by decide
  have t8 : (Char.ofNat 8).toNat = 8 := by decide
  have t9 : (Char.ofNat 9).toNat = 9 := by decide
  have t10 : (Char.ofNat 10).toNat = 10 := by decide
  have t12 : (Char.ofNat 12).toNat = 12 := by decide
  have t13 : (Char.ofNat 13).toNat = 13 := by decide
  rw [escCharL]
  rw [if_neg (fun h => by rw [h, t34] at h1; omega)]
  rw [if_neg (fun h => by rw [h, t92] at h2; omega)]
  rw [if_neg (fun h => by rw [h, t8] at h1; omega)]
  rw [if_neg (fun h => by rw [h, t9] at h1; omega)]
  rw [if_neg (fun h => by rw [h, t10] at h1; omega)]
  rw [if_neg (fun h => by rw [h, t12] at h1; omega)]
  rw [if_neg (fun h => by rw [h, t13] at h1; omega)]
  rw [if_pos ⟨by omega, by omega⟩]

/-- The json.dumps escape leaves an escape-free character list unchanged. -/
theorem escList_id (l : List Char) (h : ∀ c ∈ l, escCharL c = [c]) : escList l = l := by
  induction l with
  | nil => rfl
  | cons c cs ih =>
    rw [escList, h c (List.mem_cons_self c cs),
      ih (fun c2 h2 => h c2 (List.mem_cons_of_mem c h2))]
    rfl

/-- json.dumps of the getInfo command shape, for any escape-free timestamp
string. -/
theorem dumps_info_with (s : String) (hs : escList s.data = s.data) :
    dumps (Json.obj [(("messageId"), Json.str ("none")), (("method"), Json.str ("getInfo")),
        (("timestamp"), Json.str s)]) =
      ("\x7b\"messageId\": \"none\", \"method\": \"getInfo\", \"timestamp\": \"") ++
        (s ++ ("\"\x7d")) := by
  apply String.ext
  rw [strData_append, strData_append]
  show dumpsL (Json.obj _) = _
  simp only [dumpsL, dumpsObjL, strReprL, hs]
  simp only [List.append_assoc, List.cons_append, List.nil_append]
  rfl

/-! ### Claim theorems -/

/-- C1: the notification decoder is total over byte input: every byte list
yields either a typed NotificationEvent or a classified decode error; the
valid-UTF-8 non-JSON input "\x7bnot json" yields InvalidJson and the
non-UTF-8 input 0xFF yields InvalidEncoding. -/
theorem decode_total_and_errors_classified :
    (∀ bs : List Nat, (∃ ev, decode bs = Except.ok ev) ∨ (∃ er, decode bs = Except.error er)) ∧
    decode (asciiBytes ("\x7bnot json")) = Except.error DecodeError.invalidJson ∧
    decode [255] = Except.error DecodeError.invalidEncoding := by
  refine ⟨fun bs => ?_, rfl, rfl⟩
  cases h : decode bs with
  | ok ev => exact Or.inl ⟨ev, rfl⟩
  | error er => exact Or.inr ⟨er, rfl⟩

/-- C5: in continuous mode a pass whose subscription raises is caught and
logged, the fixed 5-second backoff follows, and the remaining schedule still
runs; moreover every scheduled pass attempts its subscription, so the loop
never exits early on any fault schedule. -/
theorem continuous_loop_survives_fault :
    (∀ (g : Bool) (f : IterFault) (rest : List IterFault), f.subscribeFault = true →
        pollTrace g (f :: rest) =
          [LoopEvent.subscribe, LoopEvent.logLoopError, LoopEvent.sleepBackoff] ++
            pollTrace g rest) ∧
    (∀ (g : Bool) (sched : List IterFault),
        (pollTrace g sched).count LoopEvent.subscribe = sched.length) := by
  constructor
  · intro g f rest hf
    simp [pollTrace, pollIter, hf]
  · exact pollTrace_subscribe_count

/-- C5 witness: a single subscription fault in the first pass leaves the
second pass running. -/
theorem continuous_loop_survives_fault_w :
    pollTrace true (⟨true, false, false⟩ :: [noFault]) =
      [LoopEvent.subscribe, LoopEvent.logLoopError, LoopEvent.sleepBackoff] ++
        pollTrace true [noFault] :=
  continuous_loop_survives_fault.1 true ⟨true, false, false⟩ [noFault] rfl

/-- C6 counterexample: two clean passes of the continuous loop attempt the
subscription twice — start_notify sits inside the while body (line 293), so
the subscription is re-issued on every pass, not exactly once before the
loop. -/
theorem subscribe_once_cex :
    pollTrace true [noFault, noFault] =
      [LoopEvent.subscribe, LoopEvent.sendInfoCmd, LoopEvent.sendPropsCmd, LoopEvent.sleepPoll,
       LoopEvent.subscribe, LoopEvent.sendInfoCmd, LoopEvent.sendPropsCmd, LoopEvent.sleepPoll] ∧
    (pollTrace true [noFault, noFault]).count LoopEvent.subscribe = 2 := by
  exact ⟨rfl, by decide⟩

/-- C6 amended: every clean pass of the continuous loop subscribes at its
start and issues the GetInfo + GetAllProperties pair, re-armed by the
interval sleep returning True, before the remaining schedule continues. -/
theorem subscribe_each_iteration :
    ∀ rest : List IterFault,
      pollTrace true (noFault :: rest) =
        [LoopEvent.subscribe, LoopEvent.sendInfoCmd, LoopEvent.sendPropsCmd,
         LoopEvent.sleepPoll] ++ pollTrace true rest := by
  intro rest
  rfl

/-- C8: the profile resolver maps each supported productId to its name
class and every other productId to the generic fallback; it never fails. -/
theorem resolveProfile_total :
    resolveProfile ("73bkTV") = ("zenp") ∧ resolveProfile ("A8yh63") = ("zenh") ∧
    resolveProfile ("yWF7hV") = ("zenr") ∧ resolveProfile ("ja72U0ha") = ("zene") ∧
    resolveProfile ("8bM93H") = ("zenf") ∧
    ∀ pid, pid ≠ ("73bkTV") → pid ≠ ("A8yh63") → pid ≠ ("yWF7hV") → pid ≠ ("ja72U0ha") →
      pid ≠ ("8bM93H") → resolveProfile pid = ("zen") := by
  refine ⟨rfl, rfl, rfl, rfl, rfl, ?_⟩
  intro pid h1 h2 h3 h4 h5
  have e1 : (pid == ("73bkTV")) = false := beq_eq_false_iff_ne.mpr h1
  have e2 : (pid == ("A8yh63")) = false := beq_eq_false_iff_ne.mpr h2
  have e3 : (pid == ("yWF7hV")) = false := beq_eq_false_iff_ne.mpr h3
  have e4 : (pid == ("ja72U0ha")) = false := beq_eq_false_iff_ne.mpr h4
  have e5 : (pid == ("8bM93H")) = false := beq_eq_false_iff_ne.mpr h5
  simp [resolveProfile, product_map, List.lookup, e1, e2, e3, e4, e5]

/-- C8 witness: an unmapped productId resolves to the generic fallback. -/
theorem resolveProfile_total_w : resolveProfile ("gDa3tb") = ("zen") :=
  resolveProfile_total.2.2.2.2.2 ("gDa3tb") (by decide) (by decide) (by decide) (by decide)
    (by decide)

/-- C10 counterexample: with the info flag set and a broker address
configured, a simultaneous disconnect request with its full configuration
takes the disconnect branch, so the continuous branch does not execute. -/
theorem info_mode_gate_cex :
    selectRunMode (some ("192.168.1.100")) (some 1883) (some ("MyWifi")) (some ("dev1"))
        true false true = RunMode.disconnectMode ∧
    ¬ selectRunMode (some ("192.168.1.100")) (some 1883) (some ("MyWifi")) (some ("dev1"))
        true false true = RunMode.continuousMode := by
  exact ⟨rfl, by decide⟩

/-- C10 amended: the info branch runs only when the info flag is set and no
broker is configured; and with the info flag set together with a broker
address, provided neither cloud-toggle guard fires, the continuous branch
executes instead. -/
theorem info_mode_gate :
    (∀ broker port ssid deviceId io c dc,
        selectRunMode broker port ssid deviceId io c dc = RunMode.infoMode →
        io = true ∧ broker = none) ∧
    (∀ (b : String) port ssid deviceId c dc,
        (dc && truthyStr (some b) && truthyNat port && truthyStr ssid &&
          truthyStr deviceId) = false →
        (c && truthyStr ssid) = false →
        selectRunMode (some b) port ssid deviceId true c dc = RunMode.continuousMode) := by
  constructor
  · intro broker port ssid deviceId io c dc h
    unfold selectRunMode at h
    split_ifs at h with h1 h2 h3
    · simp [Bool.and_eq_true] at h3
      exact ⟨h3.1, h3.2⟩
  · intro b port ssid deviceId c dc h1 h2
    simp [selectRunMode, h1, h2]

/-- C10 witness: info flag plus broker with the cloud-toggle guards off
selects the continuous branch. -/
theorem info_mode_gate_w :
    selectRunMode (some ("192.168.1.100")) (some 1883) none none true false false =
      RunMode.continuousMode :=
  info_mode_gate.2 ("192.168.1.100") (some 1883) none none false false (by decide) (by decide)

/-- C4: the locator combines a filtered-scan strategy with a linear fallback
over the collected advertiser list, both against the same case-folded name
class; for any advertiser list whose unique match is the entry named
ZenE-1234 under productId ja72U0ha (class zene), it returns that entry
whichever strategy found it, and returns empty when neither strategy finds a
match. -/
theorem discover_device_two_pass :
    (∀ (advs : List BTDevice) (primary : Option BTDevice) (d : BTDevice),
        d ∈ advs → d.name = some ("ZenE-1234") →
        (∀ p, primary = some p →
          p ∈ advs ∧ matchesClass (resolveProfile ("ja72U0ha")) p = true) →
        (∀ d2 ∈ advs, matchesClass (resolveProfile ("ja72U0ha")) d2 = true → d2 = d) →
        discover_device ("ja72U0ha") advs primary = some d) ∧
    (∀ advs : List BTDevice,
        (∀ d2 ∈ advs, matchesClass (resolveProfile ("ja72U0ha")) d2 = false) →
        discover_device ("ja72U0ha") advs none = none) := by
  constructor
  · intro advs primary d hmem hname hp huniq
    have hd : matchesClass (resolveProfile ("ja72U0ha")) d = true := by
      rcases d with ⟨nm, addr⟩
      simp only at hname
      subst hname
      rfl
    cases primary with
    | some p =>
      have hpp := hp p rfl
      have : p = d := huniq p hpp.1 hpp.2
      simp [discover_device, this]
    | none =>
      simpa [discover_device] using findInCollected_unique _ d advs hmem hd huniq
  · intro advs hnone
    simp only [discover_device]
    induction advs with
    | nil => rfl
    | cons a t ih =>
      have ha := hnone a (List.mem_cons_self a t)
      simp only [findInCollected, ha, Bool.false_eq_true, if_false]
      exact ih (fun d2 h2 => hnone d2 (List.mem_cons_of_mem a h2))

/-- C4 witness: with the entry named ZenE-1234 in a collected list beside a
non-matching advertiser and the filtered strategy yielding nothing, the
fallback returns that entry. -/
theorem discover_device_two_pass_w :
    discover_device ("ja72U0ha")
        [⟨some ("Kitchen Speaker"), ("11:22:33:44:55:66")⟩,
         ⟨some ("ZenE-1234"), ("aa:bb:cc:dd:ee:ff")⟩] none =
      some ⟨some ("ZenE-1234"), ("aa:bb:cc:dd:ee:ff")⟩ :=
  discover_device_two_pass.1
    [⟨some ("Kitchen Speaker"), ("11:22:33:44:55:66")⟩,
     ⟨some ("ZenE-1234"), ("aa:bb:cc:dd:ee:ff")⟩] none
    ⟨some ("ZenE-1234"), ("aa:bb:cc:dd:ee:ff")⟩ (by decide) rfl
    (fun p hp => by cases hp) (by decide)

/-- C2: decoding the pack-data notification with one pack yields exactly one
pack with serial ABC123 and the property mapping volt 52.1, temp 30; the
handler republishes it with the serial consumed into the per-pack topic;
and in general a pack publishes one message per property left after popping
sn, whose key sn never reappears when the keys of the pack are distinct. -/
theorem packData_strips_serial :
    decode (asciiBytes ("\x7b\"packData\":[\x7b\"sn\":\"ABC123\",\"volt\":52.1,\"temp\":30\x7d]\x7d")) =
      Except.ok (NotificationEvent.packDataUpdate
        [(("ABC123"), [(("volt"), Json.num 521 1), (("temp"), Json.num 30 0)])]) ∧
    handle_rx ("ja72U0ha") ("dev1") true
        (asciiBytes ("\x7b\"packData\":[\x7b\"sn\":\"ABC123\",\"volt\":52.1,\"temp\":30\x7d]\x7d")) =
      [⟨batteryTopic ("ABC123") ("volt"), Json.num 521 1, false⟩,
       ⟨batteryTopic ("ABC123") ("temp"), Json.num 30 0, false⟩] ∧
    (∀ (fields others : List (String × Json)) (snv : Json),
        popField fields ("sn") = some (snv, others) →
        (∀ kv ∈ others, isScalarPub kv.2 = true) →
        (fields.map Prod.fst).Nodup →
        packLoop [Json.obj fields] =
            (others.map (fun kv => ⟨batteryTopic (pyStr snv) kv.1, kv.2, false⟩), true) ∧
          ("sn") ∉ others.map Prod.fst) := by
  refine ⟨rfl, rfl, ?_⟩
  intro fields others snv hpop hscalar hnd
  constructor
  · simp [packLoop, hpop, packPropLoop_scalar (pyStr snv) others hscalar]
  · exact popField_not_mem fields ("sn") snv others hpop hnd

/-- C2 witness: the general pack property at the concrete pack of the claim. -/
theorem packData_strips_serial_w :
    packLoop [Json.obj [(("sn"), Json.str ("ABC123")), (("volt"), Json.num 521 1),
        (("temp"), Json.num 30 0)]] =
      ([⟨batteryTopic ("ABC123") ("volt"), Json.num 521 1, false⟩,
        ⟨batteryTopic ("ABC123") ("temp"), Json.num 30 0, false⟩], true) ∧
    ("sn") ∉ ([(("volt"), Json.num 521 1), (("temp"), Json.num 30 0)]).map Prod.fst :=
  packData_strips_serial.2.2
    [(("sn"), Json.str ("ABC123")), (("volt"), Json.num 521 1), (("temp"), Json.num 30 0)]
    [(("volt"), Json.num 521 1), (("temp"), Json.num 30 0)] (Json.str ("ABC123")) rfl
    (by intro kv h; fin_cases h <;> rfl) (by decide)

/-- C3: a properties notification fans out to one telemetry message per
property plus one aggregate state message whose payload decodes back to the
full mapping; at the example of the claim exactly two per-property messages plus
the aggregate on ja72U0ha/dev1/state appear. -/
theorem properties_fanout :
    handle_rx ("ja72U0ha") ("dev1") true
        (asciiBytes ("\x7b\"properties\":\x7b\"soc\":80,\"power\":120\x7d\x7d")) =
      [⟨telemetryTopic ("soc"), Json.num 80 0, false⟩,
       ⟨telemetryTopic ("power"), Json.num 120 0, false⟩,
       ⟨stateTopic ("ja72U0ha") ("dev1"),
        Json.str ("\x7b\"soc\": 80, \"power\": 120\x7d"), false⟩] ∧
    loads (("\x7b\"soc\": 80, \"power\": 120\x7d").data) =
      some (Json.obj [(("soc"), Json.num 80 0), (("power"), Json.num 120 0)]) ∧
    (∀ (pid did : String) (props : List (String × Json)),
        (∀ kv ∈ props, isScalarPub kv.2 = true) →
        processPayload pid did true (Json.obj [(("properties"), Json.obj props)]) =
          props.map (fun kv => ⟨telemetryTopic kv.1, kv.2, false⟩) ++
            [⟨stateTopic pid did, Json.str (dumps (Json.obj props)), false⟩]) := by
  refine ⟨rfl, rfl, ?_⟩
  intro pid did props hscalar
  simp [processPayload, pyContains, lookupField, propLoop_scalar props hscalar]

/-- C3 witness: the general fan-out at the concrete mapping of the claim. -/
theorem properties_fanout_w :
    processPayload ("ja72U0ha") ("dev1") true
        (Json.obj [(("properties"),
          Json.obj [(("soc"), Json.num 80 0), (("power"), Json.num 120 0)])]) =
      ([(("soc"), Json.num 80 0), (("power"), Json.num 120 0)]).map
          (fun kv => ⟨telemetryTopic kv.1, kv.2, false⟩) ++
        [⟨stateTopic ("ja72U0ha") ("dev1"),
          Json.str (dumps (Json.obj [(("soc"), Json.num 80 0), (("power"), Json.num 120 0)])),
          false⟩] :=
  properties_fanout.2.2 ("ja72U0ha") ("dev1")
    [(("soc"), Json.num 80 0), (("power"), Json.num 120 0)]
    (by intro kv h; fin_cases h <;> rfl)

/-- Whether a cloud-toggle event is a GATT command write. -/
def isSendEvt : CloudEvent → Bool
  | CloudEvent.sendCmd _ => true
  | _ => false

/-- C7 counterexample: the disconnect branch never subscribes to
notifications before sending (its trace holds no subscribe step at all), and
the connect branch with a configured mqtt client also publishes the retained
registration acknowledgment — so it is not published only in disconnect
mode. -/
theorem cloud_toggle_claim_cex :
    CloudEvent.subscribeNotify ∉
      runDisconnect ("192.168.1.100") ("MyWifi") (some ("secret")) ("ja72U0ha") ("dev1")
        true 1000 false false ∧
    CloudEvent.publish (registerTopic ("ja72U0ha") ("dev1")) (replyStr 1000) true ∈
      runConnect ("MyWifi") (some ("secret")) ("ja72U0ha") ("dev1") true 1000 false false := by
  exact ⟨by decide, by decide⟩

/-- C7 amended: the cloud-toggle branches do not subscribe to notifications;
they send the token/credentials message then the station-mode message in
that order, a send failure being logged while the sequence continues; the
retained registration acknowledgment is published whenever an mqtt client is
configured (in the connect branch as well as the disconnect branch); and the
session is held open for the fixed 30-second settle before closing. -/
theorem cloud_toggle_trace :
    ∀ (b s : String) (w : Option String) (pid did : String) (mq : Bool) (now : Nat)
      (f1 f2 : Bool),
      CloudEvent.subscribeNotify ∉ runDisconnect b s w pid did mq now f1 f2 ∧
      CloudEvent.subscribeNotify ∉ runConnect s w pid did mq now f1 f2 ∧
      (runDisconnect b s w pid did mq now false false).filter isSendEvt =
        [CloudEvent.sendCmd (dumps (c1Json b w s)), CloudEvent.sendCmd stationCmdStr] ∧
      (runDisconnect b s w pid did mq now true false).filter isSendEvt =
        [CloudEvent.sendCmd stationCmdStr] ∧
      ((CloudEvent.publish (registerTopic pid did) (replyStr now) true ∈
          runDisconnect b s w pid did mq now f1 f2) ↔ mq = true) ∧
      ((CloudEvent.publish (registerTopic pid did) (replyStr now) true ∈
          runConnect s w pid did mq now f1 f2) ↔ mq = true) ∧
      ∃ pre, runDisconnect b s w pid did mq now f1 f2 =
        pre ++ [CloudEvent.settleSleep 30, CloudEvent.closeSession] := by
  intro b s w pid did mq now f1 f2
  refine ⟨?_, ?_, ?_, ?_, ?_, ?_, ⟨set_IoT_Url b s w pid did mq now f1 f2, rfl⟩⟩
  · cases mq <;> cases f1 <;> cases f2 <;>
      simp [runDisconnect, set_IoT_Url]
  · cases mq <;> cases f1 <;> cases f2 <;>
      simp [runConnect, set_IoT_Url]
  · cases mq <;> simp [runDisconnect, set_IoT_Url, isSendEvt, List.filter]
  · cases mq <;> simp [runDisconnect, set_IoT_Url, isSendEvt, List.filter]
  · cases mq <;> cases f1 <;> cases f2 <;>
      simp [runDisconnect, set_IoT_Url]
  · cases mq <;> cases f1 <;> cases f2 <;>
      simp [runConnect, set_IoT_Url]

/-- C9: command encoding is a pure function of the envelope and the encode
instant (so re-encoding at the same instant is byte-identical), and the
getInfo envelope encodes exactly to the ASCII JSON text with the key order
messageId, method, timestamp and the timestamp stamped as the string of Unix
seconds; every emitted byte is ASCII, so the ord-mapped bytes are the UTF-8
encoding of that text. -/
theorem getInfo_encode_shape :
    ∀ t : Nat,
      dumps (info_cmd t) =
        ("\x7b\"messageId\": \"none\", \"method\": \"getInfo\", \"timestamp\": \"") ++
          (pyNatStr t ++ ("\"\x7d")) ∧
      encodeGetInfo t =
        (("\x7b\"messageId\": \"none\", \"method\": \"getInfo\", \"timestamp\": \"") ++
          (pyNatStr t ++ ("\"\x7d"))).data.map Char.toNat ∧
      ∀ byt ∈ encodeGetInfo t, byt < 128 := by
  intro t
  have hesc : escList (pyNatStr t).data = (pyNatStr t).data :=
    escList_id _ (fun c hc =>
      escCharL_digit c (pyNatStr_digits t c hc).1 (pyNatStr_digits t c hc).2)
  have hmain : dumps (info_cmd t) =
      ("\x7b\"messageId\": \"none\", \"method\": \"getInfo\", \"timestamp\": \"") ++
        (pyNatStr t ++ ("\"\x7d")) := dumps_info_with (pyNatStr t) hesc
  refine ⟨hmain, ?_, ?_⟩
  · show (dumps (info_cmd t)).data.map Char.toNat = _
    rw [hmain]
  · intro byt hb
    have hb2 : byt ∈ (dumps (info_cmd t)).data.map Char.toNat := hb
    rw [hmain, strData_append, strData_append] at hb2
    rcases List.mem_map.mp hb2 with ⟨c, hc, hcb⟩
    subst hcb
    rcases List.mem_append.mp hc with h | h
    · have : ∀ c2 ∈ (("\x7b\"messageId\": \"none\", \"method\": \"getInfo\", \"timestamp\": \"")
          : String).data, c2.toNat < 128 := by decide
      exact this c h
    · rcases List.mem_append.mp h with h2 | h2
      · have := pyNatStr_digits t c h2
        omega
      · have : ∀ c2 ∈ (("\"\x7d") : String).data, c2.toNat < 128 := by decide
        exact this c h2

/-- C9 witness: the shape equation at a concrete instant. -/
theorem getInfo_encode_shape_w :
    dumps (info_cmd 1700000000) =
      ("\x7b\"messageId\": \"none\", \"method\": \"getInfo\", \"timestamp\": \"") ++
        (pyNatStr 1700000000 ++ ("\"\x7d")) :=
  (getInfo_encode_shape 1700000000).1

/-- C1 witness: totality at a concrete non-object input. -/
theorem decode_total_and_errors_classified_w :
    (∃ ev, decode (asciiBytes ("[1, 2]")) = Except.ok ev) ∨
      (∃ er, decode (asciiBytes ("[1, 2]")) = Except.error er) :=
  decode_total_and_errors_classified.1 (asciiBytes ("[1, 2]"))

/-- C6 amended witness: one clean pass at the head of a singleton schedule. -/
theorem subscribe_each_iteration_w :
    pollTrace true [noFault] =
      [LoopEvent.subscribe, LoopEvent.sendInfoCmd, LoopEvent.sendPropsCmd,
       LoopEvent.sleepPoll] ++ pollTrace true [] :=
  subscribe_each_iteration []

/-- C7 amended witness: the settle-then-close tail at concrete arguments. -/
theorem cloud_toggle_trace_w :
    ∃ pre, runDisconnect ("192.168.1.100") ("MyWifi") (some ("secret")) ("ja72U0ha") ("dev1")
        true 1000 false false =
      pre ++ [CloudEvent.settleSleep 30, CloudEvent.closeSession] :=
  (cloud_toggle_trace ("192.168.1.100") ("MyWifi") (some ("secret")) ("ja72U0ha") ("dev1")
    true 1000 false false).2.2.2.2.2.2

end Solarflow
